import Mathlib

/-!
Verification of the SyncStream core (connection lifecycle manager and
chunked file-transfer protocol) against its natural-language specification.

The definitions below are a shallow embedding of the Python source:

* `src/src/core/transfer_protocol.py` — the `Transfer` dataclass, the
  `TransferProtocol` message handlers and the 4-byte length-prefix framing
  of `_send_message`;
* `src/src/core/network_manager.py` — the `NetworkManager` connection
  state machine, its newline framing in `send_data` / `_receive_loop`,
  the accept-loop guard and `disconnect`.

Bytes are modelled as `Nat` (values < 256 where it matters), wall-clock
times as `ℚ`, the transfer ledger (`self.transfers`, a Python dict) as an
association list keyed by transfer id, and the file system as an
association list from paths to byte lists.  Thread scheduling is outside
the embedding: each Python method is modelled as a pure function from the
state it reads to the state it writes plus the list of callback events it
triggers, mirroring the method body statement by statement.
-/

namespace SyncStream

/-! ## Message framing -/

/-- `struct.pack('!I', n)`: the 4-byte big-endian encoding used by
`TransferProtocol._send_message` (transfer_protocol.py line 417).
`struct.pack` requires `n < 2^32`. -/
def packU32BE (n : Nat) : List Nat :=
  [n / 16777216 % 256, n / 65536 % 256, n / 256 % 256, n % 256]

/-- `struct.unpack('!I', b)` on a 4-byte buffer (0 on any other length,
which the Python call would reject). -/
def unpackU32BE : List Nat → Nat
  | [b0, b1, b2, b3] => b0 * 16777216 + b1 * 65536 + b2 * 256 + b3
  | _ => 0

/-- The bytes `TransferProtocol._send_message` writes to the socket for a
given UTF-8 JSON payload: `length = struct.pack('!I', len(json_data));
sock.sendall(length + json_data)` (transfer_protocol.py lines 416-418). -/
def send_message_frame (payload : List Nat) : List Nat :=
  packU32BE payload.length ++ payload

/-- The bytes `NetworkManager.send_data` writes to the socket for a given
UTF-8-encoded string: `message = (data + "\n").encode('utf-8');
self.peer_socket.sendall(message)` (network_manager.py lines 265-266).
Appending `"\n"` before encoding appends the single byte 10. -/
def send_data_frame (data : List Nat) : List Nat :=
  data ++ [10]

/-- One framing step of `NetworkManager._receive_loop`
(network_manager.py lines 231-232): if the buffer contains a newline
byte, `message, buffer = buffer.split(b'\n', 1)` yields the bytes before
the first newline and retains the rest; otherwise no message is framed. -/
def splitFirstNewline (buffer : List Nat) : Option (List Nat × List Nat) :=
  if 10 ∈ buffer then
    some (buffer.takeWhile (· ≠ 10), (buffer.dropWhile (· ≠ 10)).drop 1)
  else
    none

/-- A byte string is a well-formed frame of the canonical length-prefixed
scheme: at least 4 bytes long, and the first 4 bytes, decoded as a
big-endian 32-bit integer, equal the number of remaining bytes. -/
def IsLengthPrefixedFrame (frame : List Nat) : Prop :=
  4 ≤ frame.length ∧ unpackU32BE (frame.take 4) = frame.length - 4

instance (frame : List Nat) : Decidable (IsLengthPrefixedFrame frame) :=
  decidable_of_iff (4 ≤ frame.length ∧ unpackU32BE (frame.take 4) = frame.length - 4)
    Iff.rfl

/-! ## Transfer records (transfer_protocol.py, `Transfer` dataclass) -/

/-- `TransferState` enum (transfer_protocol.py lines 19-26). -/
inductive TransferState
  | queued
  | sending
  | receiving
  | completed
  | failed
  | cancelled
deriving DecidableEq, Repr

/-- The `Transfer` dataclass (transfer_protocol.py lines 40-59), with the
same fields and defaults.  Times are `Option ℚ` (Python `Optional[float]`
initialised to `None`). -/
structure Transfer where
  transfer_id : String
  filename : String
  file_path : String
  file_size : Nat
  file_hash : String
  chunk_size : Nat := 65536
  sender : String := ""
  receiver : String := ""
  state : TransferState := .queued
  bytes_transferred : Nat := 0
  chunks_total : Nat := 0
  chunks_sent : Nat := 0
  retry_count : Nat := 0
  max_retries : Nat := 3
  start_time : Option ℚ := none
  end_time : Option ℚ := none
  error_message : String := ""
deriving DecidableEq, Repr

/-- `Transfer.__post_init__` (transfer_protocol.py lines 61-65): when
`chunks_total` is 0 it is set to
`(file_size + chunk_size - 1) // chunk_size`. -/
def Transfer.postInit (t : Transfer) : Transfer :=
  if t.chunks_total = 0 then
    { t with chunks_total := (t.file_size + t.chunk_size - 1) / t.chunk_size }
  else t

/-- `Transfer.progress_percent` (transfer_protocol.py lines 67-72):
100 when `file_size` is 0, else `bytes_transferred / file_size * 100`. -/
def Transfer.progress_percent (t : Transfer) : ℚ :=
  if t.file_size = 0 then 100
  else (t.bytes_transferred : ℚ) / (t.file_size : ℚ) * 100

/-- `Transfer.transfer_speed` (transfer_protocol.py lines 74-82), with the
current wall clock passed explicitly in place of `time.time()`.  Python's
`if not self.start_time` is truthiness: it holds when `start_time` is
`None` and also when it is `0.0`. -/
def Transfer.transfer_speed (t : Transfer) (now : ℚ) : ℚ :=
  match t.start_time with
  | none => 0
  | some st =>
    if st = 0 ∨ t.bytes_transferred = 0 then 0
    else if now - st = 0 then 0
    else (t.bytes_transferred : ℚ) / (now - st)

/-- `Transfer.eta_seconds` (transfer_protocol.py lines 84-91): 0 when the
speed is 0, else `(file_size - bytes_transferred) / speed`. -/
def Transfer.eta_seconds (t : Transfer) (now : ℚ) : ℚ :=
  let speed := t.transfer_speed now
  if speed = 0 then 0
  else ((t.file_size : ℚ) - (t.bytes_transferred : ℚ)) / speed

/-! ## The transfer ledger (`self.transfers : Dict[str, Transfer]`) -/

/-- The ledger `TransferProtocol.transfers`, a dict keyed by transfer id,
as an association list. -/
abbrev Ledger := List (String × Transfer)

/-- `self.transfers.get(transfer_id)`. -/
def getTransfer (ledger : Ledger) (transfer_id : String) : Option Transfer :=
  (List.find? (fun p => p.1 = transfer_id) ledger).map (·.2)

/-- In-place mutation of the `Transfer` object stored under an existing
key: every entry whose key matches is replaced, all others kept. -/
def setTransfer (ledger : Ledger) (transfer_id : String) (t : Transfer) : Ledger :=
  List.map (fun p => if p.1 = transfer_id then (transfer_id, t) else p) ledger

/-- `self.transfers[transfer_id] = transfer`: dict assignment replaces an
existing key in place and appends a fresh key at the end (Python dicts
preserve insertion order). -/
def dictSet (ledger : Ledger) (transfer_id : String) (t : Transfer) : Ledger :=
  if (getTransfer ledger transfer_id).isSome then setTransfer ledger transfer_id t
  else ledger ++ [(transfer_id, t)]

/-! ## File system model -/

/-- Received-file contents: paths mapped to byte lists. -/
abbrev FS := List (String × List Nat)

/-- The contents currently stored at a path, if the file exists. -/
def getFile (fs : FS) (path : String) : Option (List Nat) :=
  (List.find? (fun p => p.1 = path) fs).map (·.2)

/-- `open(path, 'wb')` then write: truncate/create and write the bytes. -/
def writeFile (fs : FS) (path : String) (data : List Nat) : FS :=
  if (getFile fs path).isSome then
    List.map (fun p => if p.1 = path then (path, data) else p) fs
  else
    fs ++ [(path, data)]

/-- `open(path, 'ab')` then write: append the bytes (creating the file if
absent). -/
def appendFile (fs : FS) (path : String) (data : List Nat) : FS :=
  if (getFile fs path).isSome then
    List.map (fun p => if p.1 = path then (path, p.2 ++ data) else p) fs
  else
    fs ++ [(path, data)]

/-! ## Transfer-protocol events (callback triggers) -/

/-- The callback events `TransferProtocol._trigger_callback` can fire,
tagged with the transfer id (and the message argument for errors). -/
inductive TEvent
  | transfer_start (transfer_id : String)
  | transfer_progress (transfer_id : String)
  | transfer_complete (transfer_id : String)
  | transfer_error (transfer_id : String) (message : String)
  | file_offer (transfer_id : String)
deriving DecidableEq, Repr

/-! ## Message handlers (transfer_protocol.py) -/

/-- `str(Path(save_dir) / filename)` as computed by
`TransferProtocol._handle_file_offer` (transfer_protocol.py line 319):
the save directory joined with the offered filename. -/
def offerSavePath (save_dir filename : String) : String :=
  save_dir ++ "/" ++ filename

/-- `TransferProtocol._handle_file_offer` (transfer_protocol.py lines
310-341): build a receiving `Transfer` whose `file_path` is
`save_dir / filename`, set `start_time`, store it in the ledger, fire the
`on_file_offer` callback and (auto-accept) send a FILE_ACCEPT message.
The returned Boolean records that the accept reply was sent. -/
def handle_file_offer (ledger : Ledger) (save_dir : String)
    (transfer_id filename : String) (file_size : Nat)
    (file_hash sender : String) (now : ℚ) :
    Ledger × List TEvent × Bool :=
  let transfer : Transfer :=
    Transfer.postInit
      { transfer_id := transfer_id
        filename := filename
        file_path := offerSavePath save_dir filename
        file_size := file_size
        file_hash := file_hash
        sender := sender
        state := .receiving }
  let transfer := { transfer with start_time := some now }
  (dictSet ledger transfer_id transfer, [.file_offer transfer_id], true)

/-- `TransferProtocol._handle_file_chunk` (transfer_protocol.py lines
343-364): unknown transfer id → return with nothing changed; otherwise
write the chunk (`'wb'` truncating for chunk 0, `'ab'` appending after),
add the chunk length to `bytes_transferred`, increment `chunks_sent` and
fire a progress event.  No check of the transfer's state is made. -/
def handle_file_chunk (ledger : Ledger) (fs : FS)
    (transfer_id : String) (chunk_num : Nat) (chunk_data : List Nat) :
    Ledger × FS × List TEvent :=
  match getTransfer ledger transfer_id with
  | none => (ledger, fs, [])
  | some t =>
    let fs' :=
      if chunk_num > 0 then appendFile fs t.file_path chunk_data
      else writeFile fs t.file_path chunk_data
    let t' := { t with
      bytes_transferred := t.bytes_transferred + chunk_data.length
      chunks_sent := t.chunks_sent + 1 }
    (setTransfer ledger transfer_id t', fs', [.transfer_progress transfer_id])

/-- `TransferProtocol._handle_file_complete` (transfer_protocol.py lines
366-386): unknown transfer id → return with nothing changed; otherwise
recompute the local file's hash (`calculate_file_hash`, abstracted as the
function `hashFn` of the file system and path) and compare to the hash in
the message.  On mismatch: state Failed, error message set, error event —
and `end_time` is NOT touched.  On match: state Completed, `end_time`
recorded, completion event. -/
def handle_file_complete (hashFn : FS → String → String)
    (ledger : Ledger) (fs : FS)
    (transfer_id received_hash : String) (now : ℚ) :
    Ledger × List TEvent :=
  match getTransfer ledger transfer_id with
  | none => (ledger, [])
  | some t =>
    let file_hash := hashFn fs t.file_path
    if file_hash ≠ received_hash then
      (setTransfer ledger transfer_id
        { t with state := .failed,
                 error_message := "Hash mismatch - file corrupted" },
       [.transfer_error transfer_id "Hash verification failed"])
    else
      (setTransfer ledger transfer_id
        { t with state := .completed, end_time := some now },
       [.transfer_complete transfer_id])

/-- `TransferProtocol._handle_file_error` (transfer_protocol.py lines
388-399): unknown transfer id → return with nothing changed; otherwise
state Failed, error message stored, error event fired. -/
def handle_file_error (ledger : Ledger) (transfer_id error : String) :
    Ledger × List TEvent :=
  match getTransfer ledger transfer_id with
  | none => (ledger, [])
  | some t =>
    (setTransfer ledger transfer_id
      { t with state := .failed, error_message := error },
     [.transfer_error transfer_id error])

/-- `TransferProtocol.cancel_transfer` (transfer_protocol.py lines
423-428): if the id is in the ledger, set state Cancelled — with no check
of the current state. -/
def cancel_transfer (ledger : Ledger) (transfer_id : String) : Ledger :=
  match getTransfer ledger transfer_id with
  | none => ledger
  | some t => setTransfer ledger transfer_id { t with state := .cancelled }

/-! ## Sending (transfer_protocol.py, `create_transfer` / `send_file`) -/

/-- The chunking loop of `TransferProtocol.send_file` (transfer_protocol.py
lines 229-247), fuel-indexed to make it structurally recursive: repeatedly
`f.read(chunk_size)` and stop on an empty read.  Note that Python's
`f.read(0)` returns `b''`, so a chunk size of 0 emits no chunks at all;
the guard below reproduces that.  Fuel at least `content.length` suffices
because every emitted chunk consumes at least one byte. -/
def readChunksFuel : Nat → Nat → List Nat → List (List Nat)
  | 0, _, _ => []
  | fuel + 1, csize, content =>
    if csize = 0 ∨ content = [] then []
    else content.take csize :: readChunksFuel fuel csize (content.drop csize)

/-- The list of FILE_CHUNK payloads `send_file` emits for a file with the
given contents. -/
def sendFileChunks (csize : Nat) (content : List Nat) : List (List Nat) :=
  readChunksFuel content.length csize content

/-- `TransferProtocol.create_transfer` (transfer_protocol.py lines
150-192), with the file given by its contents: `file_size` is the content
length, and the dataclass constructor (then `__post_init__`) fills
`chunks_total`. -/
def create_transfer (content : List Nat) (csize : Nat)
    (transfer_id file_path filename file_hash sender receiver : String) :
    Transfer :=
  Transfer.postInit
    { transfer_id := transfer_id
      filename := filename
      file_path := file_path
      file_size := content.length
      file_hash := file_hash
      chunk_size := csize
      sender := sender
      receiver := receiver }

/-! ## Connection manager (network_manager.py, `NetworkManager`) -/

/-- `ConnectionState` enum (network_manager.py lines 16-20). -/
inductive ConnectionState
  | disconnected
  | connecting
  | connected
deriving DecidableEq, Repr

/-- Connection-lifecycle callback events (network_manager.py lines 64-70).
`on_connected` carries `self.peer_ip` as passed at trigger time. -/
inductive NEvent
  | on_connected (peer_ip : Option String)
  | on_disconnected
  | on_connecting
  | on_connection_error (message : String)
deriving DecidableEq, Repr

/-- The `NetworkManager` fields the connection state machine reads and
writes.  Sockets are identified by `Nat` handles. -/
structure NMState where
  state : ConnectionState
  peer_socket : Option Nat
  client_socket : Option Nat
  peer_ip : Option String
  last_disconnect_time : Option ℚ
  auto_reconnect_enabled : Bool
deriving DecidableEq, Repr

/-- `NetworkManager.__init__` (network_manager.py lines 26-73): state
Disconnected, no sockets, no peer address, auto-reconnect enabled. -/
def initialNMState : NMState :=
  { state := .disconnected
    peer_socket := none
    client_socket := none
    peer_ip := none
    last_disconnect_time := none
    auto_reconnect_enabled := true }

/-- `NetworkManager._set_state` (network_manager.py lines 350-363): if
the state changes, record it and fire exactly the callback matching the
new state; if unchanged, do nothing and fire nothing. -/
def set_state (s : NMState) (new_state : ConnectionState) :
    NMState × List NEvent :=
  if s.state = new_state then (s, [])
  else
    ({ s with state := new_state },
     match new_state with
     | .connected => [.on_connected s.peer_ip]
     | .disconnected => [.on_disconnected]
     | .connecting => [.on_connecting])

/-- One iteration of the accept handling in `NetworkManager._server_loop`
(network_manager.py lines 121-136) for a newly accepted socket `sock`
from address `addr`.  Under the lock: if a peer socket already exists the
new socket is closed and the iteration `continue`s with nothing else
changed; otherwise the socket becomes the peer socket, `peer_ip` is set,
and the state moves to Connected.  Returns the new state, the events
fired, and the handles of sockets closed in this iteration. -/
def acceptConnection (s : NMState) (sock : Nat) (addr : String) :
    NMState × List NEvent × List Nat :=
  match s.peer_socket with
  | some _ => (s, [], [sock])
  | none =>
    let s1 := { s with peer_socket := some sock, peer_ip := some addr }
    let (s2, evs) := set_state s1 .connected
    (s2, evs, [])

/-- `NetworkManager.disconnect` (network_manager.py lines 273-295): close
and clear the peer socket; close and clear the client socket (after the
peer socket is cleared, any non-`None` client socket differs from it);
record `last_disconnect_time`; `_set_state(DISCONNECTED)`.  The returned
Boolean records whether the auto-reconnect thread is started
(`auto_reconnect_enabled and self.peer_ip`). -/
def disconnect (s : NMState) (now : ℚ) : NMState × List NEvent × Bool :=
  let closedPeer : NMState := { s with peer_socket := none }
  let closedBoth : NMState := { closedPeer with client_socket := none }
  let stamped : NMState := { closedBoth with last_disconnect_time := some now }
  let (s', evs) := set_state stamped .disconnected
  (s', evs, s.auto_reconnect_enabled && s.peer_ip.isSome)

/-! ## Helper lemmas -/

lemma getTransfer_cons (p : String × Transfer) (rest : Ledger) (tid : String) :
    getTransfer (p :: rest) tid =
      if p.1 = tid then some p.2 else getTransfer rest tid := by
  by_cases hk : p.1 = tid
  · rw [if_pos hk, getTransfer, List.find?_cons_of_pos _ (by simp [hk])]
    rfl
  · rw [if_neg hk, getTransfer, List.find?_cons_of_neg _ (by simp [hk])]
    rfl

lemma getTransfer_setTransfer_self (ledger : Ledger) (tid : String)
    (t t' : Transfer) (h : getTransfer ledger tid = some t) :
    getTransfer (setTransfer ledger tid t') tid = some t' := by
  induction ledger with
  | nil => simp [getTransfer] at h
  | cons p rest ih =>
    by_cases hk : p.1 = tid
    · simp only [setTransfer, List.map_cons, if_pos hk]
      rw [getTransfer_cons, if_pos rfl]
    · rw [getTransfer_cons, if_neg hk] at h
      simp only [setTransfer, List.map_cons, if_neg hk]
      rw [getTransfer_cons, if_neg hk]
      exact ih h

lemma getTransfer_setTransfer_ne (ledger : Ledger) (tid tid' : String)
    (t' : Transfer) (hne : tid' ≠ tid) :
    getTransfer (setTransfer ledger tid t') tid' = getTransfer ledger tid' := by
  induction ledger with
  | nil => rfl
  | cons p rest ih =>
    simp only [setTransfer, List.map_cons]
    by_cases hk : p.1 = tid
    · rw [if_pos hk, getTransfer_cons, getTransfer_cons]
      have h1 : ¬ (tid = tid') := fun h => hne h.symm
      rw [if_neg h1, if_neg (hk ▸ h1)]
      exact ih
    · rw [if_neg hk, getTransfer_cons, getTransfer_cons]
      by_cases hk' : p.1 = tid'
      · rw [if_pos hk', if_pos hk']
      · rw [if_neg hk', if_neg hk']
        exact ih

lemma getFile_cons (p : String × List Nat) (rest : FS) (path : String) :
    getFile (p :: rest) path =
      if p.1 = path then some p.2 else getFile rest path := by
  by_cases hk : p.1 = path
  · rw [if_pos hk, getFile, List.find?_cons_of_pos _ (by simp [hk])]
    rfl
  · rw [if_neg hk, getFile, List.find?_cons_of_neg _ (by simp [hk])]
    rfl

lemma getFile_append_single (fs : FS) (path : String) (data : List Nat)
    (h : getFile fs path = none) :
    getFile (fs ++ [(path, data)]) path = some data := by
  induction fs with
  | nil => rw [List.nil_append, getFile_cons, if_pos rfl]
  | cons p rest ih =>
    rw [getFile_cons] at h
    rw [List.cons_append, getFile_cons]
    by_cases hk : p.1 = path
    · rw [if_pos hk] at h
      exact absurd h (by simp)
    · rw [if_neg hk] at h ⊢
      exact ih h

lemma getFile_mapReplace (fs : FS) (path : String) (data : List Nat) :
    (getFile fs path).isSome →
    getFile (List.map (fun p => if p.1 = path then (path, data) else p) fs) path =
      some data := by
  induction fs with
  | nil => intro h; simp [getFile] at h
  | cons p rest ih =>
    intro h
    rw [getFile_cons] at h
    simp only [List.map_cons]
    by_cases hk : p.1 = path
    · rw [if_pos hk, getFile_cons, if_pos rfl]
    · rw [if_neg hk] at h ⊢
      rw [getFile_cons, if_neg hk]
      exact ih h

lemma getFile_writeFile_self (fs : FS) (path : String) (data : List Nat) :
    getFile (writeFile fs path data) path = some data := by
  rw [writeFile]
  by_cases hex : (getFile fs path).isSome
  · rw [if_pos hex]
    exact getFile_mapReplace fs path data hex
  · rw [if_neg hex]
    exact getFile_append_single fs path data (Option.not_isSome_iff_eq_none.mp hex)

lemma unpackU32BE_packU32BE (n : Nat) (h : n < 4294967296) :
    unpackU32BE (packU32BE n) = n := by
  simp only [packU32BE, unpackU32BE]
  omega

lemma packU32BE_length (n : Nat) : (packU32BE n).length = 4 := rfl

lemma takeWhile_append_newline (data : List Nat) (h : 10 ∉ data) :
    List.takeWhile (fun b => decide (b ≠ 10)) (data ++ [10]) = data := by
  induction data with
  | nil =>
    rw [List.nil_append, List.takeWhile_cons]
    simp
  | cons x xs ih =>
    have hx : x ≠ 10 := fun hx => h (hx ▸ List.mem_cons_self x xs)
    have hxs : 10 ∉ xs := fun hm => h (List.mem_cons_of_mem x hm)
    rw [List.cons_append, List.takeWhile_cons, if_pos (by simpa using hx)]
    rw [ih hxs]

lemma dropWhile_append_newline (data : List Nat) (h : 10 ∉ data) :
    List.dropWhile (fun b => decide (b ≠ 10)) (data ++ [10]) = [10] := by
  induction data with
  | nil =>
    rw [List.nil_append, List.dropWhile_cons]
    simp
  | cons x xs ih =>
    have hx : x ≠ 10 := fun hx => h (hx ▸ List.mem_cons_self x xs)
    have hxs : 10 ∉ xs := fun hm => h (List.mem_cons_of_mem x hm)
    rw [List.cons_append, List.dropWhile_cons, if_pos (by simpa using hx)]
    exact ih hxs

lemma readChunksFuel_nonpos (fuel csize : Nat) :
    readChunksFuel fuel csize [] = [] := by
  cases fuel with
  | zero => rfl
  | succ fuel => simp [readChunksFuel]

lemma readChunksFuel_sum (csize : Nat) (hc : 0 < csize) :
    ∀ (fuel : Nat) (content : List Nat), content.length ≤ fuel →
      ((readChunksFuel fuel csize content).map List.length).sum = content.length := by
  intro fuel
  induction fuel with
  | zero =>
    intro content hlen
    have hnil : content = [] := List.eq_nil_of_length_eq_zero (Nat.le_zero.mp hlen)
    simp [hnil, readChunksFuel]
  | succ fuel ih =>
    intro content hlen
    by_cases hnil : content = []
    · simp [hnil, readChunksFuel]
    · have hpos : 0 < content.length := List.length_pos.mpr hnil
      have hcond : ¬ (csize = 0 ∨ content = []) := by
        push_neg
        exact ⟨by omega, hnil⟩
      have hlen' : (content.drop csize).length ≤ fuel := by
        rw [List.length_drop]
        omega
      simp only [readChunksFuel]
      rw [if_neg hcond]
      simp only [List.map_cons, List.sum_cons]
      rw [ih (content.drop csize) hlen', List.length_take, List.length_drop]
      have hmin : csize ⊓ content.length = min csize content.length := rfl
      omega

lemma readChunksFuel_length (csize : Nat) (hc : 0 < csize) :
    ∀ (fuel : Nat) (content : List Nat), content.length ≤ fuel →
      (readChunksFuel fuel csize content).length =
        (content.length + csize - 1) / csize := by
  intro fuel
  induction fuel with
  | zero =>
    intro content hlen
    have hnil : content = [] := List.eq_nil_of_length_eq_zero (Nat.le_zero.mp hlen)
    simp only [hnil, readChunksFuel_nonpos, List.length_nil]
    exact (Nat.div_eq_of_lt (by omega)).symm
  | succ fuel ih =>
    intro content hlen
    by_cases hnil : content = []
    · simp only [hnil, readChunksFuel_nonpos, List.length_nil]
      exact (Nat.div_eq_of_lt (by omega)).symm
    · have hpos : 0 < content.length := List.length_pos.mpr hnil
      have hcond : ¬ (csize = 0 ∨ content = []) := by
        push_neg
        exact ⟨by omega, hnil⟩
      have hlen' : (content.drop csize).length ≤ fuel := by
        rw [List.length_drop]
        omega
      simp only [readChunksFuel]
      rw [if_neg hcond]
      rw [List.length_cons, ih (content.drop csize) hlen', List.length_drop]
      by_cases hle : content.length ≤ csize
      · have hd0 : (content.length - csize + csize - 1) / csize = 0 :=
          Nat.div_eq_of_lt (by omega)
        have h1 : (content.length + csize - 1) / csize = 1 :=
          Nat.div_eq_of_lt_le (by omega) (by omega)
        omega
      · have heq2 : content.length - csize + csize - 1 = content.length - 1 := by
          omega
        have heq : content.length + csize - 1 = (content.length - 1) + csize := by
          omega
        rw [heq2, heq, Nat.add_div_right _ hc]

lemma nat_ceilDiv_eq_rat_ceil (S C : Nat) (hc : 0 < C) :
    (((S + C - 1) / C : Nat) : ℤ) = ⌈(S : ℚ) / (C : ℚ)⌉ := by
  have h1 : ((S + C - 1) / C) * C ≤ S + C - 1 := Nat.div_mul_le_self _ _
  have h2 : S + C - 1 < ((S + C - 1) / C + 1) * C :=
    (Nat.div_lt_iff_lt_mul hc).mp (Nat.lt_succ_self _)
  have hring : ((S + C - 1) / C + 1) * C = ((S + C - 1) / C) * C + C := by ring
  rw [hring] at h2
  have hSle : S ≤ ((S + C - 1) / C) * C := by
    revert h1 h2
    generalize ((S + C - 1) / C) * C = E
    intro h1 h2
    omega
  have hlt : ((S + C - 1) / C) * C < S + C := by
    revert h1 h2
    generalize ((S + C - 1) / C) * C = E
    intro h1 h2
    omega
  have hCq : (0 : ℚ) < (C : ℚ) := by exact_mod_cast hc
  have hltq : (((S + C - 1) / C : Nat) : ℚ) * (C : ℚ) < (S : ℚ) + (C : ℚ) := by
    exact_mod_cast hlt
  have hSleq : (S : ℚ) ≤ (((S + C - 1) / C : Nat) : ℚ) * (C : ℚ) := by
    exact_mod_cast hSle
  symm
  rw [Int.ceil_eq_iff]
  refine ⟨?_, ?_⟩
  · rw [Int.cast_natCast, lt_div_iff₀ hCq]
    nlinarith [hltq]
  · rw [Int.cast_natCast, div_le_iff₀ hCq]
    exact hSleq

lemma getTransfer_append_single (ledger : Ledger) (tid : String) (t : Transfer)
    (h : getTransfer ledger tid = none) :
    getTransfer (ledger ++ [(tid, t)]) tid = some t := by
  induction ledger with
  | nil => rw [List.nil_append, getTransfer_cons, if_pos rfl]
  | cons p rest ih =>
    rw [getTransfer_cons] at h
    rw [List.cons_append, getTransfer_cons]
    by_cases hk : p.1 = tid
    · rw [if_pos hk] at h
      exact absurd h (by simp)
    · rw [if_neg hk] at h ⊢
      exact ih h

lemma getTransfer_dictSet_self (ledger : Ledger) (tid : String) (t : Transfer) :
    getTransfer (dictSet ledger tid t) tid = some t := by
  rw [dictSet]
  by_cases h : (getTransfer ledger tid).isSome
  · rw [if_pos h]
    obtain ⟨t0, ht0⟩ := Option.isSome_iff_exists.mp h
    exact getTransfer_setTransfer_self ledger tid t0 t ht0
  · rw [if_neg h]
    exact getTransfer_append_single ledger tid t (Option.not_isSome_iff_eq_none.mp h)

/-! ## Example fixtures used by witnesses and counterexamples -/

/-- A ledger holding one transfer already in the Completed state, with
zeroed counters. -/
def completedLedger : Ledger :=
  [("t1", { transfer_id := "t1", filename := "f", file_path := "p",
            file_size := 1, file_hash := "h", state := .completed })]

/-- A transfer in the Receiving state whose offer carried the hash
"offerhash"; `end_time` is unset. -/
def recvTransfer : Transfer :=
  { transfer_id := "t1", filename := "f", file_path := "p",
    file_size := 4, file_hash := "offerhash", state := .receiving }

/-- A ledger holding `recvTransfer`. -/
def receivingLedger : Ledger := [("t1", recvTransfer)]

/-- A connection-manager state with an active peer socket (handle 7). -/
def connectedNMState : NMState :=
  { state := .connected
    peer_socket := some 7
    client_socket := none
    peer_ip := some "10.0.0.2"
    last_disconnect_time := none
    auto_reconnect_enabled := true }

/-- A transfer with a zero-byte file and no start time. -/
def zeroTransfer : Transfer :=
  { transfer_id := "t0", filename := "f", file_path := "p",
    file_size := 0, file_hash := "h" }

/-! ## Claim theorems -/

/-- C1 counterexample: the claim that every protocol message written to the
socket uses the 4-byte big-endian length-prefix framing (and that no path
uses newline framing) is false: `NetworkManager.send_data` frames the
string "ping" (bytes 112, 105, 110, 103, as in the spec's Scenario A) by
appending a newline, and the resulting bytes are not a well-formed
length-prefixed frame. -/
theorem newline_frame_is_not_length_prefixed :
    ¬ IsLengthPrefixedFrame (send_data_frame [112, 105, 110, 103]) := by
  decide

/-- C1 (amended): the system uses two framings side by side.
`TransferProtocol._send_message` writes well-formed 4-byte big-endian
length-prefixed frames from which the payload is recoverable, while
`NetworkManager.send_data` appends a newline byte and
`NetworkManager._receive_loop` splits incoming bytes at the first newline,
recovering exactly the string `send_data` sent. -/
theorem framing_amended_two_schemes (payload data : List Nat)
    (hlen : payload.length < 4294967296) (hnl : 10 ∉ data) :
    IsLengthPrefixedFrame (send_message_frame payload) ∧
    (send_message_frame payload).drop 4 = payload ∧
    splitFirstNewline (send_data_frame data) = some (data, []) := by
  refine ⟨⟨?_, ?_⟩, ?_, ?_⟩
  · rw [send_message_frame, List.length_append, packU32BE_length]
    omega
  · rw [send_message_frame,
      List.take_left' (packU32BE_length payload.length),
      unpackU32BE_packU32BE payload.length hlen,
      List.length_append, packU32BE_length]
    omega
  · rw [send_message_frame, List.drop_left' (packU32BE_length payload.length)]
  · rw [send_data_frame, splitFirstNewline, if_pos (by simp)]
    rw [takeWhile_append_newline data hnl, dropWhile_append_newline data hnl]
    rfl

/-- C1 witness: the amended framing theorem at payload [97] and control
data [98]. -/
theorem framing_amended_two_schemes_witness :
    ([97] : List Nat).length < 4294967296 ∧ (10 : Nat) ∉ ([98] : List Nat) ∧
    (IsLengthPrefixedFrame (send_message_frame [97]) ∧
     (send_message_frame [97]).drop 4 = [97] ∧
     splitFirstNewline (send_data_frame [98]) = some ([98], [])) :=
  ⟨by decide, by decide,
   framing_amended_two_schemes [97] [98] (by decide) (by decide)⟩

/-- C2 counterexample: the claim that once a transfer is Completed or
Failed no subsequent operation changes its counters is false: handling a
further Chunk message for a Completed transfer increments
`bytes_transferred` and `chunks_sent`, because `_handle_file_chunk` never
inspects the transfer's state. -/
theorem chunk_after_completed_changes_counters :
    (getTransfer completedLedger "t1").map Transfer.bytes_transferred = some 0 ∧
    (getTransfer (handle_file_chunk completedLedger [] "t1" 1 [42]).1 "t1").map
        Transfer.bytes_transferred = some 1 ∧
    (getTransfer (handle_file_chunk completedLedger [] "t1" 1 [42]).1 "t1").map
        Transfer.chunks_sent = some 1 := by
  decide

/-- C2 (amended): once a transfer is Completed or Failed, handling a
Complete or an Error message for it leaves the byte/chunk counters
unchanged, but handling a further Chunk message still increments them (by
the chunk length and by one chunk): chunk handling is not guarded on the
state. -/
theorem terminal_state_counters_amended (ledger : Ledger) (fs : FS)
    (hashFn : FS → String → String)
    (tid received_hash err : String) (t : Transfer)
    (chunk_num : Nat) (chunk_data : List Nat) (now : ℚ)
    (ht : getTransfer ledger tid = some t)
    (hterm : t.state = .completed ∨ t.state = .failed) :
    getTransfer (handle_file_chunk ledger fs tid chunk_num chunk_data).1 tid =
      some { t with
        bytes_transferred := t.bytes_transferred + chunk_data.length,
        chunks_sent := t.chunks_sent + 1 } ∧
    (getTransfer (handle_file_complete hashFn ledger fs tid received_hash now).1 tid).map
        (fun u => (u.bytes_transferred, u.chunks_sent)) =
      some (t.bytes_transferred, t.chunks_sent) ∧
    (getTransfer (handle_file_error ledger tid err).1 tid).map
        (fun u => (u.bytes_transferred, u.chunks_sent)) =
      some (t.bytes_transferred, t.chunks_sent) := by
  refine ⟨?_, ?_, ?_⟩
  · simp only [handle_file_chunk, ht]
    exact getTransfer_setTransfer_self ledger tid t _ ht
  · simp only [handle_file_complete, ht]
    by_cases hh : hashFn fs t.file_path ≠ received_hash
    · rw [if_pos hh, getTransfer_setTransfer_self ledger tid t _ ht]
      rfl
    · rw [if_neg hh, getTransfer_setTransfer_self ledger tid t _ ht]
      rfl
  · simp only [handle_file_error, ht]
    rw [getTransfer_setTransfer_self ledger tid t _ ht]
    rfl

/-- C2 witness: the amended theorem at the concrete Completed-transfer
ledger, a 2-byte chunk, and a matching hash function. -/
theorem terminal_state_counters_amended_witness :
    getTransfer completedLedger "t1" =
      some { transfer_id := "t1", filename := "f", file_path := "p",
             file_size := 1, file_hash := "h", state := .completed } ∧
    getTransfer (handle_file_chunk completedLedger [] "t1" 3 [5, 6]).1 "t1" =
      some { transfer_id := "t1", filename := "f", file_path := "p",
             file_size := 1, file_hash := "h", state := .completed,
             bytes_transferred := 2, chunks_sent := 1 } :=
  ⟨by rfl,
   (terminal_state_counters_amended completedLedger [] (fun _ _ => "h")
      "t1" "h" "e"
      { transfer_id := "t1", filename := "f", file_path := "p",
        file_size := 1, file_hash := "h", state := .completed }
      3 [5, 6] 0 (by rfl) (Or.inl rfl)).1⟩

/-- C3: for every file content and every chunk size C > 0, the created
transfer's `chunks_total` is the ceiling of `file_size / C`, and the
chunking loop of `send_file` emits exactly `chunks_total` Chunk payloads
whose lengths sum to the file size. -/
theorem chunking_total_and_sum (content : List Nat) (C : Nat) (hC : 0 < C)
    (tid path fname hash sender receiver : String) :
    ((create_transfer content C tid path fname hash sender receiver).chunks_total : ℤ)
        = ⌈(content.length : ℚ) / (C : ℚ)⌉ ∧
    (sendFileChunks C content).length
        = (create_transfer content C tid path fname hash sender receiver).chunks_total ∧
    ((sendFileChunks C content).map List.length).sum = content.length := by
  have hct : (create_transfer content C tid path fname hash sender receiver).chunks_total
      = (content.length + C - 1) / C := by
    simp [create_transfer, Transfer.postInit]
  refine ⟨?_, ?_, ?_⟩
  · rw [hct]
    exact nat_ceilDiv_eq_rat_ceil content.length C hC
  · rw [hct, sendFileChunks]
    exact readChunksFuel_length C hC content.length content le_rfl
  · rw [sendFileChunks]
    exact readChunksFuel_sum C hC content.length content le_rfl

/-- C3 witness: a 7-byte file with chunk size 3 (not dividing evenly)
yields 3 chunks summing to 7 bytes. -/
theorem chunking_total_and_sum_witness :
    (0 : Nat) < 3 ∧
    (sendFileChunks 3 [0, 1, 2, 3, 4, 5, 6]).length = 3 ∧
    ((sendFileChunks 3 [0, 1, 2, 3, 4, 5, 6]).map List.length).sum = 7 := by
  refine ⟨by decide, ?_, ?_⟩
  · have h := (chunking_total_and_sum [0, 1, 2, 3, 4, 5, 6] 3 (by decide)
      "t" "p" "f" "h" "s" "r").2.1
    rw [h]
    decide
  · exact (chunking_total_and_sum [0, 1, 2, 3, 4, 5, 6] 3 (by decide)
      "t" "p" "f" "h" "s" "r").2.2

/-- C4 counterexample: the claim that `end_time` is recorded in both the
Completed and the Failed outcome of handling a Complete message is false:
on a hash mismatch `_handle_file_complete` sets the state to Failed and
returns without touching `end_time`, which stays `none`. -/
theorem hash_mismatch_leaves_end_time_unset :
    (getTransfer (handle_file_complete (fun _ _ => "actualhash")
        receivingLedger [] "t1" "offerhash" 5).1 "t1").map
      (fun u => (u.state, u.end_time, u.error_message)) =
    some (TransferState.failed, none, "Hash mismatch - file corrupted") := by
  decide

/-- C4 (amended): handling a Complete message for a known transfer
recomputes the local file's hash and compares it with the carried hash; if
equal the state becomes Completed and `end_time` is recorded, if unequal
the state becomes Failed with the hash-mismatch error message and
`end_time` is left unchanged; a terminal event is emitted in both cases. -/
theorem file_complete_amended (hashFn : FS → String → String)
    (ledger : Ledger) (fs : FS) (tid received_hash : String)
    (t : Transfer) (now : ℚ)
    (ht : getTransfer ledger tid = some t) :
    (hashFn fs t.file_path = received_hash →
      handle_file_complete hashFn ledger fs tid received_hash now =
        (setTransfer ledger tid
           { t with state := .completed, end_time := some now },
         [.transfer_complete tid])) ∧
    (hashFn fs t.file_path ≠ received_hash →
      handle_file_complete hashFn ledger fs tid received_hash now =
        (setTransfer ledger tid
           { t with state := .failed,
                    error_message := "Hash mismatch - file corrupted" },
         [.transfer_error tid "Hash verification failed"])) := by
  constructor
  · intro hh
    simp only [handle_file_complete, ht]
    rw [if_neg (fun hne => hne hh)]
  · intro hh
    simp only [handle_file_complete, ht]
    rw [if_pos hh]

/-- C4 witness: the amended theorem at the Receiving-transfer ledger with
a matching hash: the transfer becomes Completed with `end_time` set. -/
theorem file_complete_amended_witness :
    getTransfer receivingLedger "t1" = some recvTransfer ∧
    handle_file_complete (fun _ _ => "offerhash") receivingLedger []
        "t1" "offerhash" 7 =
      (setTransfer receivingLedger "t1"
        { recvTransfer with state := .completed, end_time := some 7 },
       [.transfer_complete "t1"]) :=
  ⟨by rfl,
   (file_complete_amended (fun _ _ => "offerhash") receivingLedger []
      "t1" "offerhash" recvTransfer 7 (by rfl)).1 rfl⟩

/-- C5: an inbound connection accepted while a peer socket already exists
is closed within that accept-loop iteration, fires no events, and never
replaces the existing peer socket: the state is returned unchanged. -/
theorem accept_while_peer_exists_rejected (s : NMState) (sock p : Nat)
    (addr : String) (hp : s.peer_socket = some p) :
    acceptConnection s sock addr = (s, [], [sock]) ∧
    (acceptConnection s sock addr).1.peer_socket = some p := by
  refine ⟨?_, ?_⟩
  · simp only [acceptConnection, hp]
  · simp only [acceptConnection, hp]

/-- C5 witness: the accept-loop guard at a concrete Connected state with
peer socket 7 and a new inbound socket 9. -/
theorem accept_while_peer_exists_rejected_witness :
    connectedNMState.peer_socket = some 7 ∧
    acceptConnection connectedNMState 9 "10.0.0.3" = (connectedNMState, [], [9]) :=
  ⟨by rfl,
   (accept_while_peer_exists_rejected connectedNMState 9 7 "10.0.0.3" (by rfl)).1⟩

/-- C6 counterexample: the claim that a duplicate-name collision is
resolved by appending a numeric suffix before the first write is false: a
file already exists at "downloads/f.txt", yet the transfer created for an
offered "f.txt" uses exactly that colliding path, and the first chunk
(chunk 0, mode 'wb') overwrites the existing contents. -/
theorem offer_path_collision_not_resolved :
    getFile [("downloads/f.txt", [9, 9])] "downloads/f.txt" = some [9, 9] ∧
    ((getTransfer (handle_file_offer [] "downloads" "t1" "f.txt" 3 "h" "alice" 0).1
        "t1").map Transfer.file_path) = some "downloads/f.txt" ∧
    getFile (handle_file_chunk
        (handle_file_offer [] "downloads" "t1" "f.txt" 3 "h" "alice" 0).1
        [("downloads/f.txt", [9, 9])] "t1" 0 [1, 2, 3]).2.1
      "downloads/f.txt" = some [1, 2, 3] := by
  decide

/-- C6 (amended): handling an Offer derives the receiving transfer's local
path as the configured save directory joined with the offered filename,
with no collision handling: the path is independent of existing files, and
the first chunk (chunk 0) truncates whatever is stored at that path. -/
theorem offer_path_amended (ledger : Ledger) (save_dir tid fname : String)
    (size : Nat) (hash sender : String) (now : ℚ) (fs : FS) (data : List Nat) :
    ((getTransfer (handle_file_offer ledger save_dir tid fname size hash sender now).1
        tid).map Transfer.file_path) = some (save_dir ++ "/" ++ fname) ∧
    getFile (handle_file_chunk
        (handle_file_offer ledger save_dir tid fname size hash sender now).1
        fs tid 0 data).2.1 (save_dir ++ "/" ++ fname) = some data := by
  have hT : getTransfer (handle_file_offer ledger save_dir tid fname size hash sender now).1
      tid = some { Transfer.postInit
        { transfer_id := tid, filename := fname,
          file_path := offerSavePath save_dir fname, file_size := size,
          file_hash := hash, sender := sender, state := .receiving }
        with start_time := some now } := by
    simp only [handle_file_offer]
    exact getTransfer_dictSet_self _ _ _
  have hpath : ({ Transfer.postInit
        { transfer_id := tid, filename := fname,
          file_path := offerSavePath save_dir fname, file_size := size,
          file_hash := hash, sender := sender, state := .receiving }
        with start_time := some now } : Transfer).file_path
      = save_dir ++ "/" ++ fname := by
    simp [Transfer.postInit, offerSavePath]
  refine ⟨?_, ?_⟩
  · rw [hT]
    simp only [Option.map_some']
    rw [hpath]
  · simp only [handle_file_chunk, hT]
    rw [if_neg (by omega)]
    rw [hpath]
    exact getFile_writeFile_self fs _ data

/-- C7 counterexample: the claim that Cancel leaves a transfer already in a
terminal state unchanged is false: cancelling a Completed transfer moves
its state to Cancelled, because `cancel_transfer` checks only that the id
is in the ledger. -/
theorem cancel_completed_transfer_changes_state :
    (getTransfer completedLedger "t1").map Transfer.state =
      some TransferState.completed ∧
    (getTransfer (cancel_transfer completedLedger "t1") "t1").map Transfer.state =
      some TransferState.cancelled := by
  decide

/-- C7 (amended): for every transfer id present in the ledger, Cancel sets
the transfer's state to Cancelled regardless of its current state —
including the terminal states Completed, Failed and Cancelled — and leaves
every other ledger entry unchanged. -/
theorem cancel_amended (ledger : Ledger) (tid : String) (t : Transfer)
    (ht : getTransfer ledger tid = some t) :
    getTransfer (cancel_transfer ledger tid) tid =
      some { t with state := .cancelled } ∧
    ∀ tid', tid' ≠ tid →
      getTransfer (cancel_transfer ledger tid) tid' = getTransfer ledger tid' := by
  constructor
  · simp only [cancel_transfer, ht]
    exact getTransfer_setTransfer_self ledger tid t _ ht
  · intro tid' hne
    simp only [cancel_transfer, ht]
    exact getTransfer_setTransfer_ne ledger tid tid' _ hne

/-- C7 witness: the amended Cancel behaviour at the concrete
Completed-transfer ledger. -/
theorem cancel_amended_witness :
    getTransfer completedLedger "t1" =
      some { transfer_id := "t1", filename := "f", file_path := "p",
             file_size := 1, file_hash := "h", state := .completed } ∧
    getTransfer (cancel_transfer completedLedger "t1") "t1" =
      some { transfer_id := "t1", filename := "f", file_path := "p",
             file_size := 1, file_hash := "h", state := .cancelled } :=
  ⟨by rfl,
   (cancel_amended completedLedger "t1"
      { transfer_id := "t1", filename := "f", file_path := "p",
        file_size := 1, file_hash := "h", state := .completed }
      (by rfl)).1⟩

/-- C8 counterexample: the claim that calling Disconnect twice in a row
from any state produces exactly one `on_disconnected` event is false: from
the initial state (already Disconnected), two successive calls produce no
`on_disconnected` event at all, because `_set_state` fires callbacks only
when the state actually changes. -/
theorem double_disconnect_from_disconnected_no_event :
    List.countP (fun e => decide (e = NEvent.on_disconnected))
      ((disconnect initialNMState 1).2.1 ++
       (disconnect (disconnect initialNMState 1).1 2).2.1) = 0 := by
  decide

/-- C8 (amended): calling Disconnect twice in a row leaves the state
Disconnected and produces at most one `on_disconnected` event: exactly one
when the starting state was not already Disconnected, and none when it
was. -/
theorem disconnect_idempotent_amended (s : NMState) (t1 t2 : ℚ) :
    (disconnect s t1).1.state = .disconnected ∧
    (disconnect (disconnect s t1).1 t2).1.state = .disconnected ∧
    List.countP (fun e => decide (e = NEvent.on_disconnected))
      ((disconnect s t1).2.1 ++ (disconnect (disconnect s t1).1 t2).2.1) =
      (if s.state = .disconnected then 0 else 1) := by
  cases s with
  | mk st ps cs ip ldt ar =>
    cases st <;> simp [disconnect, set_state]

/-- C9: derived transfer metrics at their boundary values: progress is 100
whenever the file size is 0 (regardless of bytes transferred), the speed
is 0 whenever no start time is set or no bytes have moved, and the ETA is
0 whenever the speed is 0. -/
theorem derived_metrics_boundaries (t : Transfer) (now : ℚ) :
    (t.file_size = 0 → t.progress_percent = 100) ∧
    ((t.start_time = none ∨ t.bytes_transferred = 0) →
      t.transfer_speed now = 0) ∧
    (t.transfer_speed now = 0 → t.eta_seconds now = 0) := by
  refine ⟨?_, ?_, ?_⟩
  · intro h
    simp [Transfer.progress_percent, h]
  · rintro (h | h)
    · simp [Transfer.transfer_speed, h]
    · cases hst : t.start_time <;> simp [Transfer.transfer_speed, hst, h]
  · intro h
    simp only [Transfer.eta_seconds]
    rw [if_pos h]

/-- C9 witness: the boundary metrics at a concrete zero-byte transfer with
no start time. -/
theorem derived_metrics_boundaries_witness :
    zeroTransfer.file_size = 0 ∧ zeroTransfer.start_time = none ∧
    zeroTransfer.progress_percent = 100 ∧
    zeroTransfer.transfer_speed 5 = 0 ∧
    zeroTransfer.eta_seconds 5 = 0 :=
  ⟨rfl, rfl, (derived_metrics_boundaries zeroTransfer 5).1 rfl,
   (derived_metrics_boundaries zeroTransfer 5).2.1 (Or.inl rfl),
   (derived_metrics_boundaries zeroTransfer 5).2.2
     ((derived_metrics_boundaries zeroTransfer 5).2.1 (Or.inl rfl))⟩

/-- C10: handling a Chunk, Complete, or Error message whose transfer id is
not in the ledger is a total no-op: each handler returns the ledger and
file system unchanged and fires no events. -/
theorem unknown_transfer_id_noop (ledger : Ledger) (fs : FS)
    (hashFn : FS → String → String) (tid received_hash err : String)
    (chunk_num : Nat) (chunk_data : List Nat) (now : ℚ)
    (h : getTransfer ledger tid = none) :
    handle_file_chunk ledger fs tid chunk_num chunk_data = (ledger, fs, []) ∧
    handle_file_complete hashFn ledger fs tid received_hash now = (ledger, []) ∧
    handle_file_error ledger tid err = (ledger, []) := by
  refine ⟨?_, ?_, ?_⟩
  · simp only [handle_file_chunk, h]
  · simp only [handle_file_complete, h]
  · simp only [handle_file_error, h]

/-- C10 witness: the no-op behaviour at the concrete Completed-transfer
ledger and an unknown transfer id. -/
theorem unknown_transfer_id_noop_witness :
    getTransfer completedLedger "missing" = none ∧
    handle_file_chunk completedLedger [] "missing" 0 [1] =
      (completedLedger, [], []) ∧
    handle_file_complete (fun _ _ => "h") completedLedger [] "missing" "h" 3 =
      (completedLedger, []) ∧
    handle_file_error completedLedger "missing" "boom" = (completedLedger, []) := by
  have h := unknown_transfer_id_noop completedLedger [] (fun _ _ => "h")
    "missing" "h" "boom" 0 [1] 3 (by rfl)
  exact ⟨by rfl, h.1, h.2.1, h.2.2⟩

end SyncStream
